import Mathlib

/-!
Shallow embedding of the ddns-cloudflare updater: a JSON value model with
Python-style dynamic operations, the Cloudflare HTTP client, the IP-echo
fallback resolver, and the orchestrating main flow, followed by theorems
about the behaviour of these definitions.
-/

set_option autoImplicit false
set_option linter.unusedVariables false

/-- JSON values as produced by parsing an HTTP response body.  The Python
None value is identified with JSON null, matching the observable behaviour
of dict.get defaults and json.loads. -/
inductive Json where
  | null
  | str (s : String)
  | num (n : Int)
  | bool (b : Bool)
  | arr (elems : List Json)
  | obj (fields : List (String × Json))

/-- The Python exception classes that the program can raise or catch.
HTTPError is a subclass of RequestException in the requests library; the
for-loop in get_current_ip catches both, and nothing else. -/
inductive PyErr where
  | requestException
  | httpError
  | valueError
  | attributeError
  | typeError
  deriving Repr, DecidableEq

/-- Numeric view used by Python equality: booleans compare equal to the
integers 0 and 1. -/
def pyNum : Json → Option Int
  | .num n => some n
  | .bool b => some (if b then 1 else 0)
  | _ => none

mutual
/-- Python equality between two values.  Strings and None compare
structurally, numbers and booleans compare through their numeric value,
containers compare elementwise.  Dict comparison is modelled on the field
lists in order; the program never compares dicts whose field order
differs. -/
def pyEq : Json → Json → Bool
  | .null, .null => true
  | .str a, .str b => a == b
  | .arr a, .arr b => pyEqList a b
  | .obj a, .obj b => pyEqFields a b
  | a, b =>
    match pyNum a, pyNum b with
    | some m, some n => m == n
    | _, _ => false

def pyEqList : List Json → List Json → Bool
  | [], [] => true
  | a :: as, b :: bs => pyEq a b && pyEqList as bs
  | _, _ => false

def pyEqFields : List (String × Json) → List (String × Json) → Bool
  | [], [] => true
  | (k, v) :: as, (l, w) :: bs => k == l && pyEq v w && pyEqFields as bs
  | _, _ => false
end

/-- Python truthiness of a value: None, empty strings, zero and empty
containers are falsy. -/
def jsonTruthy : Json → Bool
  | .null => false
  | .str s => !s.isEmpty
  | .num n => n != 0
  | .bool b => b
  | .arr elems => !elems.isEmpty
  | .obj fields => !fields.isEmpty

/-- Last occurrence of a key in a field list, matching the behaviour of
json.loads on duplicate keys (the last value wins). -/
def lookupLast (fields : List (String × Json)) (k : String) : Option Json :=
  (fields.reverse.find? (fun p => p.1 == k)).map (fun p => p.2)

/-- Python dict.get with default None on a parsed JSON object. -/
def dictGet (fields : List (String × Json)) (k : String) : Json :=
  (lookupLast fields k).getD .null

/-- Python attribute-style access value.get(k): returns the entry (or None)
on a dict, raises AttributeError on every other value. -/
def pyGetAttr (v : Json) (k : String) : Except PyErr Json :=
  match v with
  | .obj fields => .ok (dictGet fields k)
  | _ => .error .attributeError

/-- Whether a value may serve as a Python dict key; lists and dicts are
unhashable and raise TypeError when used as keys. -/
def pyHashable : Json → Bool
  | .arr _ => false
  | .obj _ => false
  | _ => true

/-- Python iteration over a value, as used by the for-comprehension in
record_by_name: lists yield elements, dicts yield their keys, strings
yield one-character strings, everything else raises TypeError. -/
def pyIter : Json → Except PyErr (List Json)
  | .arr elems => .ok elems
  | .obj fields => .ok (fields.map (fun p => Json.str p.1))
  | .str s => .ok (s.data.map (fun c => Json.str (String.singleton c)))
  | _ => .error .typeError

/-- Python str() of a value as used by f-string interpolation.  The program
only ever formats strings and None this way; container reprs are not
spelled out. -/
def pyStr : Json → String
  | .str s => s
  | .null => "None"
  | .num n => toString n
  | .bool b => if b then "True" else "False"
  | .arr _ => "[...]"
  | .obj _ => "\x7b...\x7d"

/-- Whitespace characters removed by Python str.strip() with no argument,
restricted to the ASCII whitespace the program can meet in a response
body. -/
def pyIsSpace (c : Char) : Bool :=
  c == ' ' || c == '\t' || c == '\n' || c == '\r' ||
    c == Char.ofNat 11 || c == Char.ofNat 12

/-- Python str.strip(): remove leading and trailing whitespace. -/
def pyStrip (s : String) : String :=
  ⟨((s.data.dropWhile pyIsSpace).reverse.dropWhile pyIsSpace).reverse⟩

/-- Python str() of an optional configuration string, as f-strings format
it: a missing environment variable prints as None. -/
def pyStrOpt : Option String → String
  | some s => s
  | none => "None"

/-- JSON serialization of an optional string: Python None serializes to
JSON null in a request body. -/
def jsonOfOpt : Option String → Json
  | some s => .str s
  | none => .null

/-- An outgoing HTTP request as the requests library sees it: method,
full URL, query parameters, headers, and optional JSON body. -/
structure HttpRequest where
  method : String
  url : String
  params : List (String × String)
  headers : List (String × String)
  jsonBody : Option Json

/-- Outcome of performing an HTTP request: either the transport raises a
RequestException (timeout, DNS failure, connection refused), or a response
arrives with a status code, an optional parsed JSON body (none when the
body is not valid JSON, so response.json() raises ValueError), and the
body text. -/
inductive HttpResult where
  | transportError
  | response (status : Nat) (json : Option Json) (text : String)

/-- Behaviour of response.raise_for_status() in the requests library: it
raises HTTPError exactly for client-error (4xx) and server-error (5xx)
status codes. -/
def statusRaises (s : Nat) : Bool :=
  decide (400 ≤ s) && decide (s < 600)

/-- Module-level configuration read from the environment; each value is
absent when the environment variable is unset. -/
structure Config where
  apiToken : Option String
  zoneId : Option String
  domain : Option String
  aRecordName : Option String

/-- FQDN = f-string of A_RECORD_NAME and DOMAIN; a missing value formats
as the string None, as Python f-strings do. -/
def FQDN (c : Config) : String :=
  pyStrOpt c.aRecordName ++ "." ++ pyStrOpt c.domain

namespace Cloudflare

def base_url : String := "https://api.cloudflare.com/client/v4"

/-- The session headers installed in Cloudflare.init. -/
def sessionHeaders (c : Config) : List (String × String) :=
  [("Authorization", "Bearer " ++ pyStrOpt c.apiToken),
   ("Content-Type", "application/json")]

/-- The request object that Cloudflare.request sends for a given method,
endpoint, params and JSON body. -/
def mkRequest (c : Config) (method endpoint : String)
    (params : List (String × String)) (body : Option Json) : HttpRequest :=
  ⟨method, base_url ++ "/" ++ endpoint, params, sessionHeaders c, body⟩

/-- Result of a client operation: the Python return value or the exception
it raises, together with the list of HTTP requests it issued. -/
structure CfCall (α : Type) where
  result : Except PyErr α
  calls : List HttpRequest

/-- The generic request primitive: builds the URL from the fixed base plus
endpoint, performs the call once, raises for a 4xx or 5xx status, and
returns the parsed JSON body.  A transport failure from session.request
and a ValueError from response.json() are not caught and propagate. -/
def request (c : Config) (http : HttpRequest → HttpResult)
    (method endpoint : String) (params : List (String × String))
    (body : Option Json) : CfCall Json :=
  let req := mkRequest c method endpoint params body
  match http req with
  | .transportError => ⟨.error .requestException, [req]⟩
  | .response st j _ =>
    if statusRaises st then ⟨.error .httpError, [req]⟩
    else
      match j with
      | some payload => ⟨.ok payload, [req]⟩
      | none => ⟨.error .valueError, [req]⟩

/-- dns_records(type, name): GET zones/(zone id)/dns_records with a type
parameter, adding a name parameter only when name is truthy, then .get of
the result key on the payload. -/
def dns_records (c : Config) (http : HttpRequest → HttpResult)
    (type : String) (name : Option String) : CfCall Json :=
  let params := [("type", type)] ++
    (match name with
     | some s => if s.isEmpty then [] else [("name", s)]
     | none => [])
  let call := request c http "GET"
    ("zones/" ++ pyStrOpt c.zoneId ++ "/dns_records") params none
  match call.result with
  | .error e => ⟨.error e, call.calls⟩
  | .ok payload => ⟨pyGetAttr payload "result", call.calls⟩

/-- The single GET request dns_records issues when called with its default
arguments, as record_by_name does. -/
def dnsListRequest (c : Config) : HttpRequest :=
  mkRequest c "GET" ("zones/" ++ pyStrOpt c.zoneId ++ "/dns_records")
    [("type", "A")] none

/-- The dict comprehension keying each record by its name attribute:
items are produced in iteration order, a non-dict record raises
AttributeError at its turn, an unhashable key raises TypeError. -/
def buildNameDict : List Json → Except PyErr (List (Json × Json))
  | [] => .ok []
  | r :: rest =>
    match pyGetAttr r "name" with
    | .error e => .error e
    | .ok k =>
      if pyHashable k then
        match buildNameDict rest with
        | .error e => .error e
        | .ok d => .ok ((k, r) :: d)
      else .error .typeError

/-- Python dict lookup with default None on the comprehension result:
insertion of a duplicate key overwrites, so the last pair with an equal
key wins. -/
def dictLookup (d : List (Json × Json)) (k : Json) : Option Json :=
  (d.reverse.find? (fun p => pyEq p.1 k)).map (fun p => p.2)

/-- record_by_name(name): lists the A records with no name filter, keys
them by their name attribute, and returns the entry for the module-level
FQDN; the name argument is never used. -/
def record_by_name (c : Config) (http : HttpRequest → HttpResult)
    (name : String) : CfCall (Option Json) :=
  let call := dns_records c http "A" none
  match call.result with
  | .error e => ⟨.error e, call.calls⟩
  | .ok result =>
    match pyIter result with
    | .error e => ⟨.error e, call.calls⟩
    | .ok records =>
      match buildNameDict records with
      | .error e => ⟨.error e, call.calls⟩
      | .ok d => ⟨.ok (dictLookup d (.str (FQDN c))), call.calls⟩

/-- The JSON body update_dns_record sends: type A, the configured record
label as name, the given address as content, ttl 1, proxied false. -/
def updateData (c : Config) (ip_address : Json) : Json :=
  .obj [("type", .str "A"), ("name", jsonOfOpt c.aRecordName),
        ("content", ip_address), ("ttl", .num 1), ("proxied", .bool false)]

/-- The PUT request update_dns_record issues for a given record id and
address. -/
def updateRequest (c : Config) (record_id ip_address : Json) : HttpRequest :=
  mkRequest c "PUT"
    ("zones/" ++ pyStrOpt c.zoneId ++ "/dns_records/" ++ pyStr record_id)
    [] (some (updateData c ip_address))

/-- update_dns_record(record_id, ip_address): one PUT of the update body
to the record endpoint, returning the response payload. -/
def update_dns_record (c : Config) (http : HttpRequest → HttpResult)
    (record_id ip_address : Json) : CfCall Json :=
  request c http "PUT"
    ("zones/" ++ pyStrOpt c.zoneId ++ "/dns_records/" ++ pyStr record_id)
    [] (some (updateData c ip_address))

end Cloudflare

/-- The five IP-echo service URLs, in source order; random.shuffle permutes
this list before the loop. -/
def services : List String :=
  ["https://api.ipify.org?format=json",
   "https://api.myip.com",
   "https://ipinfo.io/ip",
   "https://checkip.amazonaws.com",
   "https://ident.me"]

/-- Whether the attempt on one service raises an exception that the
for-loop catches: requests.get raising a RequestException, or
raise_for_status raising HTTPError on a 4xx or 5xx status. -/
def attemptCaught : HttpResult → Bool
  | .transportError => true
  | .response st _ _ => statusRaises st

/-- Body handling after a response that did not raise: try response.json()
and data.get of the ip key with default None; on a JSON parse ValueError
fall back to the stripped body text; attribute access on a parsed
non-dict value raises AttributeError, which nothing catches. -/
def extractValue : HttpResult → Except PyErr Json
  | .transportError => .error .requestException
  | .response _ none t => .ok (.str (pyStrip t))
  | .response _ (some (.obj fields)) _ => .ok (dictGet fields "ip")
  | .response _ (some _) _ => .error .attributeError

/-- Outcome of the resolver: the returned value or propagated exception,
plus how many services were contacted. -/
structure IpRun where
  result : Except PyErr Json
  contacted : Nat

/-- The for-loop of get_current_ip over the shuffled service list: each
service is contacted once; a caught failure moves to the next service,
a response that does not raise returns its extracted value immediately,
and when the list is exhausted the function returns None. -/
def runServices (senv : String → HttpResult) : List String → IpRun
  | [] => ⟨.ok .null, 0⟩
  | s :: rest =>
    if attemptCaught (senv s) then
      let r := runServices senv rest
      ⟨r.result, r.contacted + 1⟩
    else ⟨extractValue (senv s), 1⟩

/-- get_current_ip on a given shuffle of the service list, with senv
giving each service URL its HTTP outcome. -/
def get_current_ip (order : List String) (senv : String → HttpResult) : IpRun :=
  runServices senv order

/-- Terminal outcome of one run of main. -/
inductive MainOutcome where
  | matches (ip : Json)
  | updated (ip : Json)
  | updateFailed
  | noRecord
  | error (e : PyErr)

/-- Observable trace of one run of main: its outcome, the Cloudflare HTTP
requests issued, how often update_dns_record was invoked, whether
get_current_ip was invoked, and how many IP services were contacted. -/
structure MainTrace where
  outcome : MainOutcome
  cfCalls : List HttpRequest
  updateCalled : Nat
  ipCalled : Bool
  ipContacted : Nat

/-- Outcome of the update branch of main: a raised exception propagates;
otherwise the elif condition reports success exactly when the returned
payload is truthy, and the failure branch otherwise. -/
def mainUpdateOutcome (r : Except PyErr Json) (current_ip : Json) : MainOutcome :=
  match r with
  | .error e => .error e
  | .ok payload =>
    if jsonTruthy payload then .updated current_ip else .updateFailed

/-- The orchestrator: look up the record for FQDN; when the record is
truthy, read its id and content, resolve the current IP, compare with
Python equality, and when they differ invoke the update and report
success exactly when the returned payload is truthy.  Uncaught exceptions
abort the run. -/
def mainRun (c : Config) (http : HttpRequest → HttpResult)
    (order : List String) (senv : String → HttpResult) : MainTrace :=
  let lookup := Cloudflare.record_by_name c http (FQDN c)
  match lookup.result with
  | .error e => ⟨.error e, lookup.calls, 0, false, 0⟩
  | .ok recOpt =>
    match recOpt with
    | none => ⟨.noRecord, lookup.calls, 0, false, 0⟩
    | some record =>
      if jsonTruthy record then
        match pyGetAttr record "id" with
        | .error e => ⟨.error e, lookup.calls, 0, false, 0⟩
        | .ok record_id =>
          match pyGetAttr record "content" with
          | .error e => ⟨.error e, lookup.calls, 0, false, 0⟩
          | .ok record_ip =>
            let ipRun := get_current_ip order senv
            match ipRun.result with
            | .error e => ⟨.error e, lookup.calls, 0, true, ipRun.contacted⟩
            | .ok current_ip =>
              if pyEq record_ip current_ip then
                ⟨.matches current_ip, lookup.calls, 0, true, ipRun.contacted⟩
              else
                let upd := Cloudflare.update_dns_record c http record_id current_ip
                ⟨mainUpdateOutcome upd.result current_ip,
                  lookup.calls ++ upd.calls, 1, true, ipRun.contacted⟩
      else ⟨.noRecord, lookup.calls, 0, false, 0⟩

/-- Process exit status: zero on a normal return from main, nonzero when
an uncaught exception terminates the process. -/
def exitCode (t : MainTrace) : Nat :=
  match t.outcome with
  | .error _ => 1
  | _ => 0

/-- A concrete configuration with every environment variable present. -/
def cfg0 : Config :=
  ⟨some "token0", some "zone0", some "example.com", some "home"⟩


/-- Service environment in which the first service in source order answers
with 2xx valid JSON that has no ip field, and every other service is
unreachable. -/
def envC1 : String → HttpResult := fun s =>
  if s == "https://api.ipify.org?format=json" then
    .response 200 (some (.obj [("country", .str "ZZ")])) " 1.2.3.4 "
  else .transportError

/-- Service environment in which the first service is unreachable and the
second answers 2xx JSON carrying an ip field. -/
def envC2w : String → HttpResult := fun s =>
  if s == "https://api.myip.com" then
    .response 200 (some (.obj [("ip", .str "8.8.8.8")])) "ignored"
  else .transportError

/-- Service environment in which the second service answers 2xx valid JSON
that is a dict without an ip field, used to exercise the raw-text claim
after one failure. -/
def envC1w : String → HttpResult := fun s =>
  if s == "https://ipinfo.io/ip" then
    .response 200 (some (.obj [("hostname", .str "h")])) "7.7.7.7"
  else .transportError

/-- Service environment in which the first service answers 2xx with a
valid JSON body that is a list, so attribute access on it raises. -/
def envC3 : String → HttpResult := fun s =>
  if s == "https://api.ipify.org?format=json" then
    .response 200 (some (.arr [.num 1])) "ok"
  else .transportError

/-- DNS-provider transport that answers every request with 200 and a
truthy success payload. -/
def httpPutOk : HttpRequest → HttpResult := fun _ =>
  .response 200 (some (.obj [("success", .bool true)])) ""

/-- DNS-provider transport that answers every request with a 304 status
and a JSON body, a non-2xx status that raise_for_status does not raise
on. -/
def http304 : HttpRequest → HttpResult := fun _ =>
  .response 304 (some (.str "payload")) ""

/-- The stored A record used by the concrete runs: id rid1, name equal to
FQDN cfg0, content 1.2.3.4. -/
def record0 : Json :=
  .obj [("id", .str "rid1"), ("name", .str "home.example.com"),
        ("content", .str "1.2.3.4")]

/-- A record with the same name as record0 but different id and content,
used to exercise last-wins duplicate handling. -/
def record1 : Json :=
  .obj [("id", .str "rid2"), ("name", .str "home.example.com"),
        ("content", .str "2.2.2.2")]

/-- List payload holding exactly record0. -/
def recordsPayload : Json := .obj [("result", .arr [record0])]

/-- DNS-provider transport: record listing succeeds with record0, updates
succeed with a truthy payload. -/
def httpRecords : HttpRequest → HttpResult := fun r =>
  if r.method == "PUT" then .response 200 (some (.obj [("success", .bool true)])) ""
  else .response 200 (some recordsPayload) ""

/-- DNS-provider transport: record listing succeeds with record0, updates
fail with a 500 status. -/
def httpPut500 : HttpRequest → HttpResult := fun r =>
  if r.method == "PUT" then .response 500 (some .null) ""
  else .response 200 (some recordsPayload) ""

/-- DNS-provider transport: record listing succeeds with record0, updates
return 200 whose JSON body is null — a falsy payload without an HTTP
error. -/
def httpPutNull : HttpRequest → HttpResult := fun r =>
  if r.method == "PUT" then .response 200 (some .null) ""
  else .response 200 (some recordsPayload) ""

/-- DNS-provider transport whose record listing is an empty list. -/
def httpNoRecord : HttpRequest → HttpResult := fun _ =>
  .response 200 (some (.obj [("result", .arr [])])) ""

/-- DNS-provider transport whose record listing holds two records with the
same name, record0 before record1. -/
def httpDup : HttpRequest → HttpResult := fun _ =>
  .response 200 (some (.obj [("result", .arr [record0, record1])])) ""

/-- Service environment: the first service in source order answers 200
with a plain-text body carrying a trailing newline; the rest are down. -/
def senvText : String → HttpResult := fun s =>
  if s == "https://api.ipify.org?format=json" then
    .response 200 none "5.6.7.8\n"
  else .transportError

/-- Service environment in which every service is unreachable. -/
def senvAllFail : String → HttpResult := fun _ => .transportError

/-- The name attribute of a listed record as the comprehension reads it;
only applied to dict records. -/
def recordName : Json → Json
  | .obj fields => dictGet fields "name"
  | _ => .null

/-- DNS-provider transport whose record listing holds one record for FQDN
cfg0 that has no content field. -/
def httpNoContent : HttpRequest → HttpResult := fun _ =>
  .response 200
    (some (.obj [("result",
      .arr [.obj [("id", .str "rid1"), ("name", .str "home.example.com")]])])) ""

theorem runServices_skip (senv : String → HttpResult) (s : String)
    (rest : List String) (h : attemptCaught (senv s) = true) :
    runServices senv (s :: rest) =
      ⟨(runServices senv rest).result, (runServices senv rest).contacted + 1⟩ := by
  simp [runServices, h]

theorem runServices_hit (senv : String → HttpResult) (s : String)
    (rest : List String) (h : attemptCaught (senv s) = false) :
    runServices senv (s :: rest) = ⟨extractValue (senv s), 1⟩ := by
  simp [runServices, h]

theorem runServices_skip_failures (senv : String → HttpResult) (pre rest : List String)
    (hpre : ∀ x ∈ pre, attemptCaught (senv x) = true) :
    runServices senv (pre ++ rest) =
      ⟨(runServices senv rest).result, (runServices senv rest).contacted + pre.length⟩ := by
  induction pre with
  | nil => rfl
  | cons a l ih =>
    have ha : attemptCaught (senv a) = true := hpre a (by simp)
    have hl : ∀ x ∈ l, attemptCaught (senv x) = true :=
      fun x hx => hpre x (by simp [hx])
    rw [List.cons_append, runServices_skip senv a (l ++ rest) ha, ih hl]
    simp only [IpRun.mk.injEq, List.length_cons]
    exact ⟨trivial, by omega⟩

theorem runServices_exhausted (senv : String → HttpResult) (l : List String)
    (h : ∀ x ∈ l, attemptCaught (senv x) = true) :
    runServices senv l = ⟨.ok .null, l.length⟩ := by
  have hp := runServices_skip_failures senv l [] h
  simpa [runServices] using hp

/-- C1: the claim as stated is false.  In the run envC1, the first service
responds 200 with valid JSON lacking an ip field and body text 1.2.3.4;
get_current_ip returns None (not that raw body text) while indeed not
contacting any further service. -/
theorem c1_counterexample :
    (get_current_ip services envC1).result = Except.ok Json.null ∧
    (get_current_ip services envC1).contacted = 1 ∧
    (Except.ok Json.null : Except PyErr Json) ≠ Except.ok (Json.str "1.2.3.4") := by
  refine ⟨rfl, rfl, ?_⟩
  simp

/-- C1, amended: on a 2xx response whose body is valid JSON (a dict)
without an ip field, get_current_ip returns None — dict.get with default
None, not the raw body text — and contacts no further service. -/
theorem c1_json_without_ip_field (senv : String → HttpResult)
    (pre post : List String) (s : String) (st : Nat)
    (fields : List (String × Json)) (t : String)
    (hpre : ∀ x ∈ pre, attemptCaught (senv x) = true)
    (hresp : senv s = .response st (some (.obj fields)) t)
    (hlo : 200 ≤ st) (hhi : st < 300)
    (hip : lookupLast fields "ip" = none) :
    get_current_ip (pre ++ s :: post) senv = ⟨.ok .null, pre.length + 1⟩ := by
  have hraise : statusRaises st = false := by
    simp [statusRaises]
    omega
  have hs : attemptCaught (senv s) = false := by
    rw [hresp]
    simpa [attemptCaught] using hraise
  rw [get_current_ip, runServices_skip_failures senv pre (s :: post) hpre,
    runServices_hit senv s post hs]
  simp only [IpRun.mk.injEq]
  refine ⟨?_, by omega⟩
  rw [hresp]
  simp [extractValue, dictGet, hip]

/-- C1 witness: after one unreachable service, a 2xx dict body without an
ip field makes the resolver return None having contacted two services. -/
theorem c1_json_without_ip_field_witness :
    get_current_ip
      (["https://api.myip.com"] ++ "https://ipinfo.io/ip" ::
        ["https://checkip.amazonaws.com", "https://ident.me"]) envC1w =
      ⟨.ok .null, 2⟩ :=
  c1_json_without_ip_field envC1w ["https://api.myip.com"]
    ["https://checkip.amazonaws.com", "https://ident.me"]
    "https://ipinfo.io/ip" 200 [("hostname", .str "h")] "7.7.7.7"
    (by decide) rfl (by decide) (by decide) rfl

/-- C2: for every shuffle of the service list, if the services before s in
the shuffled order all fail with a caught exception and s does not, the
resolver returns the value extracted from s and contacts exactly the
services up to and including s — none after the first success. -/
theorem c2_first_success (order : List String) (senv : String → HttpResult)
    (pre post : List String) (s : String)
    (hperm : order.Perm services)
    (horder : order = pre ++ s :: post)
    (hpre : ∀ x ∈ pre, attemptCaught (senv x) = true)
    (hs : attemptCaught (senv s) = false) :
    get_current_ip order senv = ⟨extractValue (senv s), pre.length + 1⟩ := by
  subst horder
  rw [get_current_ip, runServices_skip_failures senv pre (s :: post) hpre,
    runServices_hit senv s post hs]
  simp only [IpRun.mk.injEq]
  exact ⟨trivial, by omega⟩

/-- C2 witness: in source order with the first service down and the second
returning 2xx JSON with an ip field, the resolver returns that address
after contacting exactly two services. -/
theorem c2_first_success_witness :
    get_current_ip services envC2w = ⟨.ok (.str "8.8.8.8"), 2⟩ :=
  (c2_first_success services envC2w ["https://api.ipify.org?format=json"]
    ["https://ipinfo.io/ip", "https://checkip.amazonaws.com", "https://ident.me"]
    "https://api.myip.com" (List.Perm.refl _)
    (by have h : services =
          ["https://api.ipify.org?format=json"] ++ "https://api.myip.com" ::
            ["https://ipinfo.io/ip", "https://checkip.amazonaws.com",
             "https://ident.me"] := rfl
        exact h)
    (by decide) (by decide)).trans rfl

/-- C3: the claim as stated is false.  In the run envC3 the first service
responds 200 with a valid JSON list body; the attribute access on it
raises an exception that is not caught, aborting the chain after one of
the five services. -/
theorem c3_counterexample :
    (get_current_ip services envC3).result = Except.error PyErr.attributeError ∧
    (get_current_ip services envC3).contacted = 1 ∧
    services.length = 5 := ⟨rfl, rfl, rfl⟩

/-- C3, amended: exceptions raised while contacting a service — transport
failures from requests.get and HTTPError from raise_for_status on a 4xx
or 5xx status — are caught and the loop continues with the next service;
a JSON parse error falls back to body text; but attribute access on a
parsed non-dict body raises an exception that is not caught. -/
theorem c3_caught_failures_continue (senv : String → HttpResult)
    (s : String) (rest : List String)
    (h : attemptCaught (senv s) = true) :
    get_current_ip (s :: rest) senv =
      ⟨(get_current_ip rest senv).result, (get_current_ip rest senv).contacted + 1⟩ :=
  runServices_skip senv s rest h

/-- C3 witness: a single unreachable service is skipped and the run ends
with None after the one contact. -/
theorem c3_caught_failures_continue_witness :
    get_current_ip ["https://ident.me"] envC3 = ⟨.ok .null, 1⟩ :=
  (c3_caught_failures_continue envC3 "https://ident.me" [] rfl).trans rfl


theorem request_ok (c : Config) (http : HttpRequest → HttpResult)
    (method endpoint : String) (params : List (String × String))
    (body : Option Json) (st : Nat) (p : Json) (t : String)
    (hresp : http (Cloudflare.mkRequest c method endpoint params body) =
      .response st (some p) t)
    (hst : statusRaises st = false) :
    Cloudflare.request c http method endpoint params body =
      ⟨.ok p, [Cloudflare.mkRequest c method endpoint params body]⟩ := by
  simp only [Cloudflare.request, hresp, hst, Bool.false_eq_true, if_false]

theorem request_raises (c : Config) (http : HttpRequest → HttpResult)
    (method endpoint : String) (params : List (String × String))
    (body : Option Json) (st : Nat) (j : Option Json) (t : String)
    (hresp : http (Cloudflare.mkRequest c method endpoint params body) =
      .response st j t)
    (hst : statusRaises st = true) :
    Cloudflare.request c http method endpoint params body =
      ⟨.error .httpError, [Cloudflare.mkRequest c method endpoint params body]⟩ := by
  simp only [Cloudflare.request, hresp, hst, if_true]

/-- C5: update_dns_record issues exactly one request, a PUT to the record
endpoint, whose JSON body is type A, the configured record label as name,
the given address as content, ttl 1 and proxied false; when the provider
responds without raising, the response payload is returned. -/
theorem c5_update_put (c : Config) (http : HttpRequest → HttpResult)
    (record_id ip_address : Json) (st : Nat) (p : Json) (t : String)
    (hresp : http (Cloudflare.updateRequest c record_id ip_address) =
      .response st (some p) t)
    (hst : statusRaises st = false) :
    Cloudflare.update_dns_record c http record_id ip_address =
      ⟨.ok p, [Cloudflare.updateRequest c record_id ip_address]⟩ ∧
    (Cloudflare.updateRequest c record_id ip_address).method = "PUT" ∧
    (Cloudflare.updateRequest c record_id ip_address).url =
      Cloudflare.base_url ++ "/" ++
        ("zones/" ++ pyStrOpt c.zoneId ++ "/dns_records/" ++ pyStr record_id) ∧
    (Cloudflare.updateRequest c record_id ip_address).jsonBody =
      some (.obj [("type", .str "A"), ("name", jsonOfOpt c.aRecordName),
        ("content", ip_address), ("ttl", .num 1), ("proxied", .bool false)]) :=
  ⟨request_ok c http "PUT"
      ("zones/" ++ pyStrOpt c.zoneId ++ "/dns_records/" ++ pyStr record_id)
      [] (some (Cloudflare.updateData c ip_address)) st p t hresp hst,
    rfl, rfl, rfl⟩

/-- C5 witness: a concrete update issues the expected single PUT and
returns the success payload. -/
theorem c5_update_put_witness :
    Cloudflare.update_dns_record cfg0 httpPutOk (.str "rid1") (.str "5.6.7.8") =
      ⟨.ok (.obj [("success", .bool true)]),
        [Cloudflare.updateRequest cfg0 (.str "rid1") (.str "5.6.7.8")]⟩ :=
  (c5_update_put cfg0 httpPutOk (.str "rid1") (.str "5.6.7.8") 200
    (.obj [("success", .bool true)]) "" rfl (by decide)).1

theorem mainRun_no_record (c : Config) (http : HttpRequest → HttpResult)
    (order : List String) (senv : String → HttpResult)
    (hrec : (Cloudflare.record_by_name c http (FQDN c)).result = .ok none) :
    mainRun c http order senv =
      ⟨.noRecord, (Cloudflare.record_by_name c http (FQDN c)).calls, 0, false, 0⟩ := by
  simp only [mainRun, hrec]

theorem mainRun_matches_lemma (c : Config) (http : HttpRequest → HttpResult)
    (order : List String) (senv : String → HttpResult)
    (fields : List (String × Json)) (ipv : Json)
    (hrec : (Cloudflare.record_by_name c http (FQDN c)).result =
      .ok (some (.obj fields)))
    (hne : fields ≠ [])
    (hip : (get_current_ip order senv).result = .ok ipv)
    (heq : pyEq (dictGet fields "content") ipv = true) :
    mainRun c http order senv =
      ⟨.matches ipv, (Cloudflare.record_by_name c http (FQDN c)).calls, 0, true,
        (get_current_ip order senv).contacted⟩ := by
  have hfe : fields.isEmpty = false := by
    cases fields with
    | nil => exact absurd rfl hne
    | cons a l => rfl
  simp only [mainRun, hrec, hip, heq, jsonTruthy, hfe, pyGetAttr,
    Bool.not_false, if_true]

theorem mainRun_update_lemma (c : Config) (http : HttpRequest → HttpResult)
    (order : List String) (senv : String → HttpResult)
    (fields : List (String × Json)) (ipv : Json)
    (hrec : (Cloudflare.record_by_name c http (FQDN c)).result =
      .ok (some (.obj fields)))
    (hne : fields ≠ [])
    (hip : (get_current_ip order senv).result = .ok ipv)
    (hdiff : pyEq (dictGet fields "content") ipv = false) :
    mainRun c http order senv =
      ⟨mainUpdateOutcome
          (Cloudflare.update_dns_record c http (dictGet fields "id") ipv).result ipv,
        (Cloudflare.record_by_name c http (FQDN c)).calls ++
          (Cloudflare.update_dns_record c http (dictGet fields "id") ipv).calls,
        1, true, (get_current_ip order senv).contacted⟩ := by
  have hfe : fields.isEmpty = false := by
    cases fields with
    | nil => exact absurd rfl hne
    | cons a l => rfl
  simp only [mainRun, hrec, hip, hdiff, jsonTruthy, hfe, pyGetAttr,
    Bool.not_false, if_true, Bool.false_eq_true, if_false]

/-- C4: whenever the stored record content equals the resolved current IP
under Python equality — including both being None — main reports a match
and the update operation is never invoked. -/
theorem c4_equal_no_update (c : Config) (http : HttpRequest → HttpResult)
    (order : List String) (senv : String → HttpResult)
    (fields : List (String × Json)) (ipv : Json)
    (hperm : order.Perm services)
    (hrec : (Cloudflare.record_by_name c http (FQDN c)).result =
      .ok (some (.obj fields)))
    (hne : fields ≠ [])
    (hip : (get_current_ip order senv).result = .ok ipv)
    (heq : pyEq (dictGet fields "content") ipv = true) :
    (mainRun c http order senv).outcome = .matches ipv ∧
    (mainRun c http order senv).updateCalled = 0 := by
  rw [mainRun_matches_lemma c http order senv fields ipv hrec hne hip heq]
  exact ⟨rfl, rfl⟩

/-- C4 witness: with the stored content absent and every IP service down,
both sides are None and the run reports a match without updating. -/
theorem c4_equal_no_update_witness :
    (mainRun cfg0 httpNoContent services senvAllFail).outcome = .matches .null ∧
    (mainRun cfg0 httpNoContent services senvAllFail).updateCalled = 0 :=
  c4_equal_no_update cfg0 httpNoContent services senvAllFail
    [("id", .str "rid1"), ("name", .str "home.example.com")] .null
    (List.Perm.refl _) rfl (by simp) rfl rfl

theorem request_calls (c : Config) (http : HttpRequest → HttpResult)
    (method endpoint : String) (params : List (String × String))
    (body : Option Json) :
    (Cloudflare.request c http method endpoint params body).calls =
      [Cloudflare.mkRequest c method endpoint params body] := by
  simp only [Cloudflare.request]
  split
  · rfl
  · split
    · rfl
    · split <;> rfl

theorem update_dns_record_calls (c : Config) (http : HttpRequest → HttpResult)
    (record_id ip_address : Json) :
    (Cloudflare.update_dns_record c http record_id ip_address).calls =
      [Cloudflare.updateRequest c record_id ip_address] :=
  request_calls c http "PUT"
    ("zones/" ++ pyStrOpt c.zoneId ++ "/dns_records/" ++ pyStr record_id)
    [] (some (Cloudflare.updateData c ip_address))

theorem dns_records_calls (c : Config) (http : HttpRequest → HttpResult) :
    (Cloudflare.dns_records c http "A" none).calls = [Cloudflare.dnsListRequest c] := by
  simp only [Cloudflare.dns_records]
  split <;> (rw [request_calls]; rfl)

theorem record_by_name_calls (c : Config) (http : HttpRequest → HttpResult)
    (name : String) :
    (Cloudflare.record_by_name c http name).calls = [Cloudflare.dnsListRequest c] := by
  simp only [Cloudflare.record_by_name]
  split
  · rw [dns_records_calls]
  · split
    · rw [dns_records_calls]
    · split <;> rw [dns_records_calls]

theorem buildNameDict_all_obj (recs : List Json)
    (h : ∀ r ∈ recs, (∃ fs, r = .obj fs) ∧ pyHashable (recordName r) = true) :
    Cloudflare.buildNameDict recs = .ok (recs.map (fun r => (recordName r, r))) := by
  induction recs with
  | nil => rfl
  | cons r rest ih =>
    obtain ⟨⟨fs, rfl⟩, hh⟩ := h r (by simp)
    have hrest := ih (fun x hx => h x (by simp [hx]))
    simp only [Cloudflare.buildNameDict, pyGetAttr, List.map_cons]
    rw [hrest, show pyHashable (dictGet fs "name") = true from hh]
    simp [recordName]

theorem dictLookup_map_aux (l : List Json) (k : Json) :
    ((l.map (fun r => (recordName r, r))).find? (fun p => pyEq p.1 k)).map
        (fun p => p.2) =
      l.find? (fun r => pyEq (recordName r) k) := by
  induction l with
  | nil => rfl
  | cons r rest ih =>
    simp only [List.map_cons, List.find?_cons]
    cases h : pyEq (recordName r) k
    · simp only [h]
      exact ih
    · simp [h]

theorem dictLookup_map (recs : List Json) (k : Json) :
    Cloudflare.dictLookup (recs.map (fun r => (recordName r, r))) k =
      recs.reverse.find? (fun r => pyEq (recordName r) k) := by
  unfold Cloudflare.dictLookup
  rw [← List.map_reverse]
  exact dictLookup_map_aux recs.reverse k

theorem record_by_name_result (c : Config) (http : HttpRequest → HttpResult)
    (name : String) (st : Nat) (t : String) (pl : List (String × Json))
    (recs : List Json)
    (hresp : http (Cloudflare.dnsListRequest c) = .response st (some (.obj pl)) t)
    (hst : statusRaises st = false)
    (hresult : dictGet pl "result" = .arr recs)
    (hrecs : ∀ r ∈ recs, (∃ fs, r = .obj fs) ∧ pyHashable (recordName r) = true) :
    (Cloudflare.record_by_name c http name).result =
      .ok (recs.reverse.find? (fun r => pyEq (recordName r) (.str (FQDN c)))) := by
  have hreq : Cloudflare.request c http "GET"
      ("zones/" ++ pyStrOpt c.zoneId ++ "/dns_records") ([("type", "A")] ++ []) none =
      ⟨.ok (.obj pl), [Cloudflare.dnsListRequest c]⟩ :=
    request_ok c http "GET" ("zones/" ++ pyStrOpt c.zoneId ++ "/dns_records")
      ([("type", "A")] ++ []) none st (.obj pl) t hresp hst
  have hdns : Cloudflare.dns_records c http "A" none =
      ⟨.ok (.arr recs), [Cloudflare.dnsListRequest c]⟩ := by
    simp only [Cloudflare.dns_records]
    rw [hreq]
    simp [pyGetAttr, hresult]
  simp only [Cloudflare.record_by_name]
  rw [hdns]
  simp only [pyIter, buildNameDict_all_obj recs hrecs, dictLookup_map]

/-- C6: the claim as stated is false.  A 304 response is not 2xx, yet
raise_for_status does not raise on it: the request returns the parsed
body instead of raising an error. -/
theorem c6_counterexample :
    (Cloudflare.request cfg0 http304 "GET" "zones/zone0/dns_records" [] none).result =
      Except.ok (Json.str "payload") ∧
    ¬ (200 ≤ 304 ∧ 304 < 300) :=
  ⟨rfl, by omega⟩

/-- C6, amended: the generic request primitive raises exactly on 4xx and
5xx statuses (client and server errors), issuing the one request with no
retry; and when the update call receives such a status in main, the
error propagates and terminates the process with a nonzero status, never
reaching the update-failed report. -/
theorem c6_raises_on_4xx_5xx :
    (∀ (c : Config) (http : HttpRequest → HttpResult) (method endpoint : String)
       (params : List (String × String)) (body : Option Json) (st : Nat)
       (j : Option Json) (t : String),
      http (Cloudflare.mkRequest c method endpoint params body) = .response st j t →
      statusRaises st = true →
      Cloudflare.request c http method endpoint params body =
        ⟨.error .httpError, [Cloudflare.mkRequest c method endpoint params body]⟩) ∧
    (∀ (c : Config) (http : HttpRequest → HttpResult) (order : List String)
       (senv : String → HttpResult) (fields : List (String × Json)) (ipv : Json)
       (st : Nat) (j : Option Json) (t : String),
      (Cloudflare.record_by_name c http (FQDN c)).result = .ok (some (.obj fields)) →
      fields ≠ [] →
      (get_current_ip order senv).result = .ok ipv →
      pyEq (dictGet fields "content") ipv = false →
      http (Cloudflare.updateRequest c (dictGet fields "id") ipv) = .response st j t →
      statusRaises st = true →
      (mainRun c http order senv).outcome = .error .httpError ∧
      exitCode (mainRun c http order senv) = 1) := by
  constructor
  · intro c http method endpoint params body st j t hresp hst
    exact request_raises c http method endpoint params body st j t hresp hst
  · intro c http order senv fields ipv st j t hrec hne hip hdiff hupd hst
    have hu : Cloudflare.update_dns_record c http (dictGet fields "id") ipv =
        ⟨.error .httpError, [Cloudflare.updateRequest c (dictGet fields "id") ipv]⟩ :=
      request_raises c http "PUT"
        ("zones/" ++ pyStrOpt c.zoneId ++ "/dns_records/" ++ pyStr (dictGet fields "id"))
        [] (some (Cloudflare.updateData c ipv)) st j t hupd hst
    rw [mainRun_update_lemma c http order senv fields ipv hrec hne hip hdiff, hu]
    exact ⟨rfl, rfl⟩

/-- C6 witness: a concrete 500 on a request raises, and a concrete run
whose update receives 500 terminates with a propagated error and exit
status 1. -/
theorem c6_raises_on_4xx_5xx_witness :
    Cloudflare.request cfg0 httpPut500 "PUT" "x" [] none =
      ⟨.error .httpError, [Cloudflare.mkRequest cfg0 "PUT" "x" [] none]⟩ ∧
    (mainRun cfg0 httpPut500 services senvText).outcome = .error .httpError ∧
    exitCode (mainRun cfg0 httpPut500 services senvText) = 1 :=
  ⟨c6_raises_on_4xx_5xx.1 cfg0 httpPut500 "PUT" "x" [] none 500 (some .null) "" rfl rfl,
   c6_raises_on_4xx_5xx.2 cfg0 httpPut500 services senvText
     [("id", .str "rid1"), ("name", .str "home.example.com"),
      ("content", .str "1.2.3.4")]
     (.str "5.6.7.8") 500 (some .null) "" rfl (by simp) rfl rfl rfl rfl⟩

/-- C7: when every service in the shuffled order fails with a caught
exception, get_current_ip returns None after contacting them all; with a
real string stored as the record content, the comparison is unequal and
main invokes the update once, with None as the new address. -/
theorem c7_all_services_fail (c : Config) (http : HttpRequest → HttpResult)
    (order : List String) (senv : String → HttpResult)
    (fields : List (String × Json)) (cip : String)
    (hperm : order.Perm services)
    (hfail : ∀ s ∈ order, attemptCaught (senv s) = true)
    (hrec : (Cloudflare.record_by_name c http (FQDN c)).result =
      .ok (some (.obj fields)))
    (hne : fields ≠ [])
    (hcontent : dictGet fields "content" = .str cip) :
    (get_current_ip order senv).result = .ok .null ∧
    (mainRun c http order senv).updateCalled = 1 ∧
    Cloudflare.updateRequest c (dictGet fields "id") .null ∈
      (mainRun c http order senv).cfCalls := by
  have hrun : get_current_ip order senv = ⟨.ok .null, order.length⟩ :=
    runServices_exhausted senv order hfail
  have hip : (get_current_ip order senv).result = .ok .null := by rw [hrun]
  have hdiff : pyEq (dictGet fields "content") Json.null = false := by
    rw [hcontent]
    rfl
  rw [mainRun_update_lemma c http order senv fields .null hrec hne hip hdiff]
  refine ⟨hip, rfl, ?_⟩
  rw [update_dns_record_calls]
  exact List.mem_append_right _ (by simp)

/-- C7 witness: all five services unreachable, record content 1.2.3.4;
the resolver returns None and the run issues one update whose address is
None. -/
theorem c7_all_services_fail_witness :
    (get_current_ip services senvAllFail).result = .ok .null ∧
    (mainRun cfg0 httpRecords services senvAllFail).updateCalled = 1 ∧
    Cloudflare.updateRequest cfg0 (.str "rid1") .null ∈
      (mainRun cfg0 httpRecords services senvAllFail).cfCalls :=
  c7_all_services_fail cfg0 httpRecords services senvAllFail
    [("id", .str "rid1"), ("name", .str "home.example.com"),
     ("content", .str "1.2.3.4")]
    "1.2.3.4" (List.Perm.refl _) (by decide) rfl (by simp) rfl

/-- C8: the claim as stated is false.  In this run the update call
completes without raising — the PUT receives status 200 — and yet the
failure-report branch executes, because the 200 response carries the
falsy JSON payload null. -/
theorem c8_counterexample :
    (mainRun cfg0 httpPutNull services senvText).outcome = .updateFailed ∧
    httpPutNull (Cloudflare.updateRequest cfg0 (.str "rid1") (.str "5.6.7.8")) =
      .response 200 (some .null) "" :=
  ⟨rfl, rfl⟩

/-- C8, amended: when the update call completes without raising, the
success branch is taken exactly when the returned payload is truthy; the
failure-report branch is reachable, but only through a non-raising
response whose payload is falsy. -/
theorem c8_update_truthy_success (c : Config) (http : HttpRequest → HttpResult)
    (order : List String) (senv : String → HttpResult)
    (fields : List (String × Json)) (ipv : Json) (st : Nat) (p : Json) (t : String)
    (hperm : order.Perm services)
    (hrec : (Cloudflare.record_by_name c http (FQDN c)).result =
      .ok (some (.obj fields)))
    (hne : fields ≠ [])
    (hip : (get_current_ip order senv).result = .ok ipv)
    (hdiff : pyEq (dictGet fields "content") ipv = false)
    (hupd : http (Cloudflare.updateRequest c (dictGet fields "id") ipv) =
      .response st (some p) t)
    (hst : statusRaises st = false) :
    (mainRun c http order senv).outcome =
      (if jsonTruthy p then MainOutcome.updated ipv else MainOutcome.updateFailed) := by
  have hu : Cloudflare.update_dns_record c http (dictGet fields "id") ipv =
      ⟨.ok p, [Cloudflare.updateRequest c (dictGet fields "id") ipv]⟩ :=
    request_ok c http "PUT"
      ("zones/" ++ pyStrOpt c.zoneId ++ "/dns_records/" ++ pyStr (dictGet fields "id"))
      [] (some (Cloudflare.updateData c ipv)) st p t hupd hst
  rw [mainRun_update_lemma c http order senv fields ipv hrec hne hip hdiff, hu]
  rfl

/-- C8 witness: a run whose update receives 200 with a truthy payload
takes the success branch. -/
theorem c8_update_truthy_success_witness :
    (mainRun cfg0 httpRecords services senvText).outcome =
      MainOutcome.updated (.str "5.6.7.8") :=
  c8_update_truthy_success cfg0 httpRecords services senvText
    [("id", .str "rid1"), ("name", .str "home.example.com"),
     ("content", .str "1.2.3.4")]
    (.str "5.6.7.8") 200 (.obj [("success", .bool true)]) ""
    (List.Perm.refl _) rfl (by simp) rfl rfl rfl (by decide)

/-- C9: when no listed record has the configured FQDN as its name —
including an empty listing — main reports no record, never invokes the
update, never invokes the IP resolver, and the process exits with status
0. -/
theorem c9_no_record (c : Config) (http : HttpRequest → HttpResult)
    (order : List String) (senv : String → HttpResult) (st : Nat) (t : String)
    (pl : List (String × Json)) (recs : List Json)
    (hperm : order.Perm services)
    (hresp : http (Cloudflare.dnsListRequest c) = .response st (some (.obj pl)) t)
    (hst : statusRaises st = false)
    (hresult : dictGet pl "result" = .arr recs)
    (hrecs : ∀ r ∈ recs, (∃ fs, r = .obj fs) ∧ pyHashable (recordName r) = true ∧
      pyEq (recordName r) (.str (FQDN c)) = false) :
    (mainRun c http order senv).outcome = .noRecord ∧
    (mainRun c http order senv).updateCalled = 0 ∧
    (mainRun c http order senv).ipCalled = false ∧
    exitCode (mainRun c http order senv) = 0 := by
  have hres := record_by_name_result c http (FQDN c) st t pl recs hresp hst hresult
    (fun r hr => ⟨(hrecs r hr).1, (hrecs r hr).2.1⟩)
  have hnone : recs.reverse.find? (fun r => pyEq (recordName r) (.str (FQDN c))) =
      none :=
    List.find?_eq_none.mpr (fun r hr => by
      simp [(hrecs r (List.mem_reverse.mp hr)).2.2])
  rw [hnone] at hres
  rw [mainRun_no_record c http order senv hres]
  exact ⟨rfl, rfl, rfl, rfl⟩

/-- C9 witness: an empty record listing produces the no-record report with
no update, no IP resolution, and exit status 0. -/
theorem c9_no_record_witness :
    (mainRun cfg0 httpNoRecord services senvAllFail).outcome = .noRecord ∧
    (mainRun cfg0 httpNoRecord services senvAllFail).updateCalled = 0 ∧
    (mainRun cfg0 httpNoRecord services senvAllFail).ipCalled = false ∧
    exitCode (mainRun cfg0 httpNoRecord services senvAllFail) = 0 :=
  c9_no_record cfg0 httpNoRecord services senvAllFail 200 ""
    [("result", .arr [])] [] (List.Perm.refl _) rfl (by decide) rfl (by simp)

/-- C10: record_by_name ignores its name argument entirely, issues the one
listing GET whose only parameter is the A type filter (no name filter),
and returns the record selected by the module-level FQDN with the last
record winning among duplicates of that name. -/
theorem c10_record_by_name_ignores_argument :
    (∀ (c : Config) (http : HttpRequest → HttpResult) (n1 n2 : String),
      Cloudflare.record_by_name c http n1 = Cloudflare.record_by_name c http n2) ∧
    (∀ (c : Config) (http : HttpRequest → HttpResult) (n : String),
      (Cloudflare.record_by_name c http n).calls = [Cloudflare.dnsListRequest c] ∧
      (Cloudflare.dnsListRequest c).params = [("type", "A")] ∧
      (Cloudflare.dnsListRequest c).method = "GET") ∧
    (∀ (c : Config) (http : HttpRequest → HttpResult) (n : String) (st : Nat)
       (t : String) (pl : List (String × Json)) (recs : List Json),
      http (Cloudflare.dnsListRequest c) = .response st (some (.obj pl)) t →
      statusRaises st = false →
      dictGet pl "result" = .arr recs →
      (∀ r ∈ recs, (∃ fs, r = .obj fs) ∧ pyHashable (recordName r) = true) →
      (Cloudflare.record_by_name c http n).result =
        .ok (recs.reverse.find? (fun r => pyEq (recordName r) (.str (FQDN c))))) :=
  ⟨fun c http n1 n2 => rfl,
   fun c http n => ⟨record_by_name_calls c http n, rfl, rfl⟩,
   fun c http n st t pl recs hresp hst hresult hrecs =>
     record_by_name_result c http n st t pl recs hresp hst hresult hrecs⟩

/-- C10 witness: two listed records share the FQDN name; the lookup result
does not depend on the argument and returns the later record. -/
theorem c10_record_by_name_ignores_argument_witness :
    Cloudflare.record_by_name cfg0 httpDup "completely-ignored" =
      Cloudflare.record_by_name cfg0 httpDup "other" ∧
    (Cloudflare.record_by_name cfg0 httpDup "x").result = .ok (some record1) := by
  refine ⟨c10_record_by_name_ignores_argument.1 cfg0 httpDup "completely-ignored"
    "other", ?_⟩
  have h := c10_record_by_name_ignores_argument.2.2 cfg0 httpDup "x" 200 ""
    [("result", .arr [record0, record1])] [record0, record1] rfl (by decide) rfl
    (by
      intro r hr
      rcases List.mem_cons.mp hr with rfl | hr2
      · exact ⟨⟨_, rfl⟩, rfl⟩
      · rcases List.mem_cons.mp hr2 with rfl | h3
        · exact ⟨⟨_, rfl⟩, rfl⟩
        · exact absurd h3 (by simp))
  rw [h]
  rfl
